import Mathlib

/-!
Verification development for the gssquared emulator core.

The definitions below are a shallow embedding of
  * the Disk II controller state machine of
    `src/src/devices/diskii/diskii.cpp` (`read_nybble`,
    `diskII_read_C0xx`, `diskII_init`), and
  * the execution scheduler burst loop of `src/src/gs2.cpp` (`run_cpus`).

Modelling conventions: C `uint8_t`/`uint16_t` fields are `Nat` (byte
values are reduced mod 256 exactly where the C code stores into a
`uint8_t`); the `int8_t track` field is `Int` (signed overflow is
undefined behaviour in C++ and is not modelled); the per-track nibble
buffer `nibblized.tracks[t].data[i]` is abstracted as a total function
`tracks : Int → Nat → Nat`, since the container type lives in
`diskii_fmt.hpp`, which is not among the sources.  Debug `printf`
statements of the source have no state effect and are omitted.
-/

/-- Per-drive state, following `struct diskII` in diskii.cpp.  The fields
`rw_mode`, `image_index` and `last_read_cycle` of the C struct are never
read on the modelled paths and are omitted. -/
structure diskII where
  track : Int
  phase0 : Nat
  phase1 : Nat
  phase2 : Nat
  phase3 : Nat
  last_phase_on : Nat
  motor : Nat
  Q7 : Nat
  Q6 : Nat
  write_protect : Nat
  head_position : Nat
  bit_position : Nat
  read_shift_register : Nat
  mark_cycles_turnoff : Nat
  tracks : Int → Nat → Nat

/-- The byte fetched by `read_nybble` when it (re)loads the shift
register: `disk.nibblized.tracks[disk.track/2].data[disk.head_position]`,
stored into the `uint8_t` shift register (hence the mod 256). -/
def loadByte (d : diskII) : Nat :=
  d.tracks (Int.tdiv d.track 2) d.head_position % 256

/-- Shallow embedding of `read_nybble` (diskii.cpp lines 224-257), the
accurate bit-serial branch.  Returns the byte placed on the bus and the
updated drive state.  Note the C post-increment: the wrap test
`head_position++ >= 0x1A00` compares the pre-increment value, so the
buffer is read at the *old* `head_position` and the wrap to 0 happens
only on the read after the one that reached 0x1A00. -/
def read_nybble (disk : diskII) : Nat × diskII :=
  if disk.motor = 0 then
    (disk.read_shift_register, disk)
  else
    let disk1 :=
      if disk.bit_position = 0 then
        { disk with
            read_shift_register := loadByte disk,
            head_position :=
              if 0x1A00 ≤ disk.head_position then 0 else disk.head_position + 1 }
      else disk
    let bp := disk1.bit_position + 1
    (disk1.read_shift_register >>> (8 - bp),
     { disk1 with bit_position := if bp = 8 then 0 else bp })

/-- One controller card: two drives plus `drive_select`
(`struct diskII_controller`). -/
structure diskII_controller where
  drive0 : diskII
  drive1 : diskII
  drive_select : Nat

/-- Indexing `drive[i]` of a controller (`i` only ever holds 0 or 1 in
the source). -/
def driveAt (c : diskII_controller) (i : Nat) : diskII :=
  if i = 0 then c.drive0 else c.drive1

/-- The drive denoted by `diskII_slot[slot].drive[drive_select]`. -/
def selDrive (c : diskII_controller) : diskII :=
  driveAt c c.drive_select

/-- Write the (possibly updated) selected drive back into the slot it was
read from, and store the (possibly updated) `drive_select`.  The C code
indexes `drive[drive_select]` once at entry, so a drive-select register
access still writes through the reference taken at entry. -/
def writeBack (c : diskII_controller) (d : diskII) (ds : Nat) : diskII_controller :=
  if c.drive_select = 0 then { c with drive0 := d, drive_select := ds }
  else { c with drive1 := d, drive_select := ds }

/-- The deferred motor-stop check performed at the top of
`diskII_read_C0xx` (lines 316-320): if the motor is on, a turnoff
deadline is pending, and the cycle counter is strictly past it, stop the
motor and clear the deadline. -/
def motorCheck (d : diskII) (cycles : Nat) : diskII :=
  if d.motor = 1 ∧ d.mark_cycles_turnoff ≠ 0 ∧ d.mark_cycles_turnoff < cycles then
    { d with motor := 0, mark_cycles_turnoff := 0 }
  else d

/-- The `switch (reg)` body of `diskII_read_C0xx` (lines 327-427), as an
if-chain over the register offset (the `DiskII_*` enum values follow the
$C0S0..$C0SF layout documented in the file header and in the interface table of
the spec).  Result: an early-return value (`some v` models a
`return v` inside the switch), the updated selected drive, and the
updated `drive_select`. -/
def switchStep (d : diskII) (ds reg cycles : Nat) : Option Nat × diskII × Nat :=
  let lpo := d.last_phase_on
  if reg = 0 then (none, { d with phase0 := 0 }, ds)
  else if reg = 1 then
    (none, { d with
        track := if lpo = 1 then d.track - 1 else if lpo = 3 then d.track + 1 else d.track,
        phase0 := 1, last_phase_on := 0 }, ds)
  else if reg = 2 then (none, { d with phase1 := 0 }, ds)
  else if reg = 3 then
    (none, { d with
        track := if lpo = 2 then d.track - 1 else if lpo = 0 then d.track + 1 else d.track,
        phase1 := 1, last_phase_on := 1 }, ds)
  else if reg = 4 then (none, { d with phase2 := 0 }, ds)
  else if reg = 5 then
    (none, { d with
        track := if lpo = 3 then d.track - 1 else if lpo = 1 then d.track + 1 else d.track,
        phase2 := 1, last_phase_on := 2 }, ds)
  else if reg = 6 then (none, { d with phase3 := 0 }, ds)
  else if reg = 7 then
    (none, { d with
        track := if lpo = 0 then d.track - 1 else if lpo = 2 then d.track + 1 else d.track,
        phase3 := 1, last_phase_on := 3 }, ds)
  else if reg = 8 then
    (none, (if d.motor = 1 then { d with mark_cycles_turnoff := cycles + 750000 } else d), ds)
  else if reg = 9 then (none, { d with motor := 1, mark_cycles_turnoff := 0 }, ds)
  else if reg = 10 then (none, d, 0)
  else if reg = 11 then (none, d, 1)
  else if reg = 12 then (none, { d with Q6 := 0 }, ds)
  else if reg = 13 then (none, { d with Q6 := 1 }, ds)
  else if reg = 14 then
    ((if d.Q6 = 0 then some (d.write_protect <<< 7) else none), { d with Q7 := 0 }, ds)
  else if reg = 15 then (none, { d with Q7 := 1 }, ds)
  else (none, d, ds)

/-- The tail of `diskII_read_C0xx` after the switch (lines 429-448): an
early `return` inside the switch is final; otherwise any even-offset
access with Q7 = 0 and Q6 = 0 returns `read_nybble`; otherwise the track
is clamped at 0 and the fixed value 0xEE is returned.  Note that both
early-return paths skip the clamp. -/
def finishAccess (reg : Nat) (sw : Option Nat × diskII × Nat) : Nat × diskII × Nat :=
  match sw with
  | (some v, d, ds) => (v, d, ds)
  | (none, d, ds) =>
    if reg % 2 = 0 ∧ d.Q7 = 0 ∧ d.Q6 = 0 then
      ((read_nybble d).1, (read_nybble d).2, ds)
    else
      (0xEE, (if d.track < 0 then { d with track := 0 } else d), ds)

/-- One register access to the controller, by register offset `reg`
(already masked to 0..15 by the caller) at cycle count `cycles`:
the deferred motor-stop check, then the switch, then the common tail. -/
def diskIIAccessReg (c : diskII_controller) (reg cycles : Nat) : Nat × diskII_controller :=
  let d := motorCheck (selDrive c) cycles
  let r := finishAccess reg (switchStep d c.drive_select reg cycles)
  (r.1, writeBack c r.2.1 r.2.2)

/-- Shallow embedding of `diskII_read_C0xx` for one controller slot:
the C code computes `reg = (address - 0xC080) & 0x0F` and dispatches on
it (the slot dimension of the global `diskII_slot` array is outside the
claims and omitted). -/
def diskII_read_C0xx (c : diskII_controller) (address cycles : Nat) : Nat × diskII_controller :=
  diskIIAccessReg c ((address - 0xC080) % 16) cycles

/-- Drive state established by `diskII_init` (diskii.cpp lines 456-478);
`Q6`/`Q7` come from the member initializers of `struct diskII`.  The
track-buffer contents are not written by `diskII_init` (they come from
mounting) and are a parameter. -/
def diskII_init_drive (tracks : Int → Nat → Nat) : diskII :=
  { track := 0, phase0 := 0, phase1 := 0, phase2 := 0, phase3 := 0,
    last_phase_on := 0, motor := 0, Q7 := 0, Q6 := 0, write_protect := 1,
    head_position := 0, bit_position := 0, read_shift_register := 0,
    mark_cycles_turnoff := 0, tracks := tracks }

/-- Controller state established by `diskII_init` for one slot. -/
def diskII_init_controller (t0 t1 : Int → Nat → Nat) : diskII_controller :=
  { drive0 := diskII_init_drive t0, drive1 := diskII_init_drive t1, drive_select := 0 }

/-- Iterated bit-serial reads: `readSeq d n` performs `n` consecutive
`read_nybble` calls, collecting the returned bytes in order. -/
def readSeq (d : diskII) : Nat → List Nat × diskII
  | 0 => ([], d)
  | n + 1 =>
    let r := read_nybble d
    let rest := readSeq r.2 n
    (r.1 :: rest.1, rest.2)

/-- A sequence of controller register accesses, each given as a pair
(address, cycle count), applied left to right through
`diskII_read_C0xx`. -/
def applyReads (c : diskII_controller) : List (Nat × Nat) → diskII_controller
  | [] => c
  | a :: rest => applyReads (diskII_read_C0xx c a.1 a.2).2 rest

/-- The phase-step table as written in section 4.3 of the specification
(phase just turned on, stored `last_phase_on`, signed half-track delta;
any other combination steps by 0).  This definition follows the wording of the
spec and is compared against the switch of the code in the claims below. -/
def specStepDelta (phase lpo : Nat) : Int :=
  if phase = 0 ∧ lpo = 1 then -1
  else if phase = 0 ∧ lpo = 3 then 1
  else if phase = 1 ∧ lpo = 2 then -1
  else if phase = 1 ∧ lpo = 0 then 1
  else if phase = 2 ∧ lpo = 3 then -1
  else if phase = 2 ∧ lpo = 1 then 1
  else if phase = 3 ∧ lpo = 0 then -1
  else if phase = 3 ∧ lpo = 2 then 1
  else 0

/-- The inner burst loop of the scheduler (gs2.cpp lines 212-221):
`while (cpu->cycles - last_cycle_count < 17008) { ... execute_next ... }`.
The external CPU core is abstracted as a function `step` from the cycle
counter to the next cycle counter (the claim assumes every step advances
the counter and does not signal a stop, so the `break` on a positive
return value and the paravirtual trap call are not taken).  `fuel` bounds
the recursion; 17008 suffices whenever each step advances the counter. -/
def burstLoop (step : Nat → Nat) (last_cycle_count : Nat) : Nat → Nat → Nat
  | 0, cycles => cycles
  | fuel + 1, cycles =>
    if cycles - last_cycle_count < 17008 then
      burstLoop step last_cycle_count fuel (step cycles)
    else cycles

/-- Iterated scheduler frames: each iteration of the `while (1)` loop of
`run_cpus` snapshots `last_cycle_count = cpu->cycles` and runs one burst
(the periodic hooks and the pacing wait do not advance the cycle
counter). -/
def runFrames (step : Nat → Nat) : Nat → Nat → Nat
  | 0, cycles => cycles
  | n + 1, cycles => runFrames step n (burstLoop step cycles 17008 cycles)

/-- Constant-zero track data, used to build concrete states. -/
def zeroTracks : Int → Nat → Nat := fun _ _ => 0

/-- Concrete state for claim C1: drive 0 at track 0 with
`last_phase_on = 1`, so turning phase 0 on resolves to a −1 step. -/
def exC1 : diskII_controller :=
  { diskII_init_controller zeroTracks zeroTracks with
      drive0 := { diskII_init_drive zeroTracks with last_phase_on := 1 } }

/-- Concrete motor-on drive over a track filled with 0xD5 bytes. -/
def exC2 : diskII :=
  { diskII_init_drive (fun _ _ => 0xD5) with motor := 1 }

/-- Concrete state for claim C3: drive 0 with the motor on, a deferred
turnoff deadline of cycle 1000 pending, latched byte 0x55, and 0xD5
track data. -/
def exC3 : diskII_controller :=
  { diskII_init_controller zeroTracks zeroTracks with
      drive0 := { diskII_init_drive (fun _ _ => 0xD5) with
                    motor := 1, mark_cycles_turnoff := 1000,
                    read_shift_register := 0x55 } }

/-- Track data that is 0 everywhere except index 0x1A00 (one past the
last valid index of a 0x1A00-byte track buffer), which is marked with
the sentinel 0xAB: reading the sentinel proves the buffer was indexed at
its length. -/
def c4tracks : Int → Nat → Nat := fun _ i => if i = 0x1A00 then 0xAB else 0

/-- Motor-on drive over `c4tracks` with the head at byte `n`. -/
def c4drive (n : Nat) : diskII :=
  { diskII_init_drive c4tracks with motor := 1, head_position := n }

/-- Concrete state for claim C6: drive 0 with Q6 = 1, Q7 = 0 (the mode
the claim calls write-protect sense) and `write_protect = 0`. -/
def exC6hi : diskII_controller :=
  { diskII_init_controller zeroTracks zeroTracks with
      drive0 := { diskII_init_drive zeroTracks with Q6 := 1, write_protect := 0 } }

/-- Concrete state for claims C6/C7: the initialized controller, whose
drive 0 has Q6 = 0, Q7 = 0, motor off and `write_protect = 1`. -/
def exC7 : diskII_controller :=
  { diskII_init_controller zeroTracks zeroTracks with
      drive0 := { diskII_init_drive zeroTracks with read_shift_register := 0x55 } }

/-- Concrete state for claim C10: drive 1 (not selected) has its motor
on with a turnoff deadline of cycle 5 already long past. -/
def exC10 : diskII_controller :=
  { diskII_init_controller zeroTracks zeroTracks with
      drive1 := { diskII_init_drive zeroTracks with motor := 1, mark_cycles_turnoff := 5 } }

/-! Helper lemmas: field-preservation facts about the small state
transformers, used by several of the claim theorems below. -/

theorem motorCheck_track (d : diskII) (cy : Nat) : (motorCheck d cy).track = d.track := by
  unfold motorCheck; split <;> rfl

theorem motorCheck_lpo (d : diskII) (cy : Nat) :
    (motorCheck d cy).last_phase_on = d.last_phase_on := by
  unfold motorCheck; split <;> rfl

theorem motorCheck_Q6 (d : diskII) (cy : Nat) : (motorCheck d cy).Q6 = d.Q6 := by
  unfold motorCheck; split <;> rfl

theorem motorCheck_Q7 (d : diskII) (cy : Nat) : (motorCheck d cy).Q7 = d.Q7 := by
  unfold motorCheck; split <;> rfl

theorem motorCheck_wp (d : diskII) (cy : Nat) :
    (motorCheck d cy).write_protect = d.write_protect := by
  unfold motorCheck; split <;> rfl

theorem motorCheck_hp (d : diskII) (cy : Nat) :
    (motorCheck d cy).head_position = d.head_position := by
  unfold motorCheck; split <;> rfl

theorem motorCheck_bp (d : diskII) (cy : Nat) :
    (motorCheck d cy).bit_position = d.bit_position := by
  unfold motorCheck; split <;> rfl

theorem motorCheck_rsr (d : diskII) (cy : Nat) :
    (motorCheck d cy).read_shift_register = d.read_shift_register := by
  unfold motorCheck; split <;> rfl

theorem motorCheck_fires (d : diskII) (cy : Nat) (hm : d.motor = 1)
    (hk : d.mark_cycles_turnoff ≠ 0) (hcy : d.mark_cycles_turnoff < cy) :
    motorCheck d cy = { d with motor := 0, mark_cycles_turnoff := 0 } := by
  unfold motorCheck
  rw [if_pos ⟨hm, hk, hcy⟩]

theorem motorCheck_skip (d : diskII) (cy : Nat) (h : ¬ d.mark_cycles_turnoff < cy) :
    motorCheck d cy = d := by
  unfold motorCheck
  rw [if_neg]
  intro hc
  exact h hc.2.2

theorem read_nybble_track (d : diskII) : (read_nybble d).2.track = d.track := by
  unfold read_nybble
  split
  · rfl
  · dsimp only
    split <;> rfl

theorem read_nybble_lpo (d : diskII) :
    (read_nybble d).2.last_phase_on = d.last_phase_on := by
  unfold read_nybble
  split
  · rfl
  · dsimp only
    split <;> rfl

theorem read_nybble_motor (d : diskII) : (read_nybble d).2.motor = d.motor := by
  unfold read_nybble
  split
  · rfl
  · dsimp only
    split <;> rfl

theorem read_nybble_mark (d : diskII) :
    (read_nybble d).2.mark_cycles_turnoff = d.mark_cycles_turnoff := by
  unfold read_nybble
  split
  · rfl
  · dsimp only
    split <;> rfl

theorem read_nybble_frozen (d : diskII) (h : d.motor = 0) :
    read_nybble d = (d.read_shift_register, d) := by
  unfold read_nybble
  rw [if_pos h]

theorem driveAt_writeBack (c : diskII_controller) (d : diskII) (ds : Nat) :
    driveAt (writeBack c d ds) c.drive_select = d := by
  unfold driveAt writeBack
  split <;> simp_all

theorem writeBack_drive1 (c : diskII_controller) (d : diskII) (ds : Nat)
    (h : c.drive_select = 0) : (writeBack c d ds).drive1 = c.drive1 := by
  unfold writeBack
  rw [if_pos h]

theorem writeBack_drive0 (c : diskII_controller) (d : diskII) (ds : Nat)
    (h : c.drive_select ≠ 0) : (writeBack c d ds).drive0 = c.drive0 := by
  unfold writeBack
  rw [if_neg h]

theorem readSeq_eight (d : diskII) (hm : d.motor = 1) (hb : d.bit_position = 0)
    (hh : d.head_position < 0x1A00) :
    readSeq d 8 =
      ([loadByte d >>> 7, loadByte d >>> 6, loadByte d >>> 5, loadByte d >>> 4,
        loadByte d >>> 3, loadByte d >>> 2, loadByte d >>> 1, loadByte d >>> 0],
       { d with read_shift_register := loadByte d,
                head_position := d.head_position + 1,
                bit_position := 0 }) := by
  have hh' : ¬ 0x1A00 ≤ d.head_position := by omega
  simp [readSeq, read_nybble, hm, hb, hh']

theorem readSeq_add (m n : Nat) (d : diskII) :
    (readSeq d (m + n)).2 = (readSeq (readSeq d m).2 n).2 := by
  induction m generalizing d with
  | zero => rw [Nat.zero_add]; rfl
  | succ k ih =>
    have hs : k + 1 + n = (k + n) + 1 := by omega
    rw [hs]
    show (readSeq (read_nybble d).2 (k + n)).2 = _
    rw [ih]
    rfl

theorem c4_reach (n : Nat) (hn : n ≤ 0x1A00) :
    (readSeq (c4drive 0) (8 * n)).2 = c4drive n := by
  induction n with
  | zero => rfl
  | succ m ih =>
    have hm : m ≤ 0x1A00 := by omega
    have hmlt : m < 0x1A00 := by omega
    have h8 : 8 * (m + 1) = 8 * m + 8 := by omega
    rw [h8, readSeq_add, ih hm]
    rw [readSeq_eight (c4drive m) rfl rfl hmlt]
    have hL : loadByte (c4drive m) = 0 := by
      simp [loadByte, c4drive, diskII_init_drive, c4tracks, Nat.ne_of_lt hmlt]
    rw [hL]
    rfl

/-- Claim C1, counterexample: at track 0 with `last_phase_on = 1`,
turning phase 0 on (offset 1) resolves to a −1 step in the section 4.3
table, but the access leaves `track` at 0 (the clamp at the end of
`diskII_read_C0xx` discards the step), so the access does not change
`track` by the table delta. -/
theorem C1_counterexample :
    (driveAt (diskIIAccessReg exC1 1 0).2 exC1.drive_select).track
      ≠ (selDrive exC1).track + specStepDelta 0 (selDrive exC1).last_phase_on := by
  decide

/-- Claim C1 (amended): starting from a nonnegative track, a phase-on
access (offset 2p+1) sets the `track` of the selected drive to the table
delta applied to it and clamped at 0, and sets `last_phase_on` to the
phase just turned on; a phase-off access (offset 2p) changes neither
`track` nor `last_phase_on`. -/
theorem C1_amended (c : diskII_controller) (cycles p : Nat)
    (hp : p < 4) (ht : 0 ≤ (selDrive c).track) :
    (driveAt (diskIIAccessReg c (2 * p + 1) cycles).2 c.drive_select).track
        = max 0 ((selDrive c).track + specStepDelta p (selDrive c).last_phase_on) ∧
    (driveAt (diskIIAccessReg c (2 * p + 1) cycles).2 c.drive_select).last_phase_on = p ∧
    (driveAt (diskIIAccessReg c (2 * p) cycles).2 c.drive_select).track = (selDrive c).track ∧
    (driveAt (diskIIAccessReg c (2 * p) cycles).2 c.drive_select).last_phase_on
        = (selDrive c).last_phase_on := by
  interval_cases p <;>
    simp only [diskIIAccessReg, driveAt_writeBack, switchStep, finishAccess, specStepDelta,
      motorCheck_track, motorCheck_lpo, read_nybble_track, read_nybble_lpo] <;>
    norm_num <;>
    constructor <;>
    split_ifs <;>
    simp_all [motorCheck_track, motorCheck_lpo, read_nybble_track, read_nybble_lpo] <;>
    omega

/-- Claim C1 witness: the amended theorem applied at the concrete state
`exC1` with phase 0. -/
theorem C1_witness :
    (0 : Int) ≤ (selDrive exC1).track ∧
    ((driveAt (diskIIAccessReg exC1 1 0).2 exC1.drive_select).track
        = max 0 ((selDrive exC1).track + specStepDelta 0 (selDrive exC1).last_phase_on) ∧
     (driveAt (diskIIAccessReg exC1 1 0).2 exC1.drive_select).last_phase_on = 0 ∧
     (driveAt (diskIIAccessReg exC1 0 0).2 exC1.drive_select).track = (selDrive exC1).track ∧
     (driveAt (diskIIAccessReg exC1 0 0).2 exC1.drive_select).last_phase_on
        = (selDrive exC1).last_phase_on) :=
  ⟨by decide, C1_amended exC1 0 0 (by decide) (by decide)⟩

/-- Claim C2: with the motor on and `bit_position = 0` and the head at a
valid buffer index, eight consecutive `read_nybble` calls return the
byte of the track buffer at the pre-read `head_position` shifted right
by 7, 6, 5, 4, 3, 2, 1, 0 bits (its bits most-significant first),
advance `head_position` by exactly 1 in total, and leave `bit_position`
back at 0. -/
theorem C2_eight_reads (d : diskII) (hm : d.motor = 1) (hb : d.bit_position = 0)
    (hh : d.head_position < 0x1A00) :
    readSeq d 8 =
      ([loadByte d >>> 7, loadByte d >>> 6, loadByte d >>> 5, loadByte d >>> 4,
        loadByte d >>> 3, loadByte d >>> 2, loadByte d >>> 1, loadByte d >>> 0],
       { d with read_shift_register := loadByte d,
                head_position := d.head_position + 1,
                bit_position := 0 }) :=
  readSeq_eight d hm hb hh

/-- Claim C2 witness: the theorem applied at the concrete motor-on drive
`exC2` over all-0xD5 track data. -/
theorem C2_witness :
    exC2.motor = 1 ∧ exC2.bit_position = 0 ∧ exC2.head_position < 0x1A00 ∧
    readSeq exC2 8 =
      ([loadByte exC2 >>> 7, loadByte exC2 >>> 6, loadByte exC2 >>> 5, loadByte exC2 >>> 4,
        loadByte exC2 >>> 3, loadByte exC2 >>> 2, loadByte exC2 >>> 1, loadByte exC2 >>> 0],
       { exC2 with read_shift_register := loadByte exC2,
                   head_position := exC2.head_position + 1,
                   bit_position := 0 }) :=
  ⟨rfl, rfl, by decide, C2_eight_reads exC2 rfl rfl (by decide)⟩

/-- Claim C4: the head-position invariant is violated by the code.  From
the initialized motor-on drive, after 8 * 0x1A00 data-register reads the
head sits at index 0x1A00 — equal to the track-buffer length, outside
the claimed range [0, 0x1A00) — and the next byte load reads the buffer
at index 0x1A00 (the 0xAB sentinel placed there by `c4tracks`), i.e. the
buffer is indexed at its length before the wrap to 0 happens. -/
theorem C4_head_position_overrun :
    (readSeq (c4drive 0) (8 * 0x1A00)).2.head_position = 0x1A00 ∧
    (read_nybble ((readSeq (c4drive 0) (8 * 0x1A00)).2)).2.read_shift_register = 0xAB ∧
    (read_nybble ((readSeq (c4drive 0) (8 * 0x1A00)).2)).2.head_position = 0 := by
  have h := c4_reach 0x1A00 (le_refl _)
  rw [h]
  refine ⟨rfl, ?_, ?_⟩ <;> decide

theorem deadline_fires (c : diskII_controller) (cycles reg : Nat)
    (hr : reg < 16) (hr9 : reg ≠ 9)
    (hm : (selDrive c).motor = 1) (hk : (selDrive c).mark_cycles_turnoff ≠ 0)
    (hcy : (selDrive c).mark_cycles_turnoff < cycles) :
    (driveAt (diskIIAccessReg c reg cycles).2 c.drive_select).motor = 0 ∧
    (driveAt (diskIIAccessReg c reg cycles).2 c.drive_select).mark_cycles_turnoff = 0 := by
  have hmc := motorCheck_fires (selDrive c) cycles hm hk hcy
  interval_cases reg <;>
    simp_all [diskIIAccessReg, driveAt_writeBack, switchStep, finishAccess,
      read_nybble_motor, read_nybble_mark] <;>
    split_ifs <;>
    simp_all [read_nybble_motor, read_nybble_mark] <;>
    split_ifs <;>
    simp_all

/-- Claim C3, counterexample: the source checks the deadline with a
strict comparison (`cpu->cycles > mark_cycles_turnoff`), so a
data-register access performed exactly *at* the deadline (cycle 1000 =
`mark_cycles_turnoff`) leaves the motor on, while the claim says every
access at or after the deadline first sets `motor` to false. -/
theorem C3_counterexample :
    exC3.drive0.mark_cycles_turnoff = 1000 ∧
    (driveAt (diskIIAccessReg exC3 12 1000).2 exC3.drive_select).motor = 1 := by
  decide

/-- Claim C3 (amended): with the motor on and a deferred-stop deadline
pending on the selected drive, (i) a data-register read (offset 0xC) at
a cycle count at or before the deadline still observes the motor on and
behaves as the shifting `read_nybble` path; (ii) every register access
strictly after the deadline (except motor-on, offset 9) first sets
`motor` to false and clears the deadline; (iii) a data-register read in
read mode strictly after the deadline returns the frozen latched byte
and does not advance the head or the bit counter; (iv) a motor-on
access (offset 9) sets `motor` true and clears any pending deadline. -/
theorem C3_amended (c : diskII_controller) (cycles : Nat)
    (hm : (selDrive c).motor = 1) (hk : (selDrive c).mark_cycles_turnoff ≠ 0) :
    (cycles ≤ (selDrive c).mark_cycles_turnoff →
      (driveAt (diskIIAccessReg c 12 cycles).2 c.drive_select).motor = 1 ∧
      ((selDrive c).Q7 = 0 →
        diskIIAccessReg c 12 cycles
          = ((read_nybble { selDrive c with Q6 := 0 }).1,
             writeBack c (read_nybble { selDrive c with Q6 := 0 }).2 c.drive_select))) ∧
    ((selDrive c).mark_cycles_turnoff < cycles →
      ∀ reg, reg < 16 → reg ≠ 9 →
        (driveAt (diskIIAccessReg c reg cycles).2 c.drive_select).motor = 0 ∧
        (driveAt (diskIIAccessReg c reg cycles).2 c.drive_select).mark_cycles_turnoff = 0) ∧
    ((selDrive c).mark_cycles_turnoff < cycles → (selDrive c).Q7 = 0 →
      (diskIIAccessReg c 12 cycles).1 = (selDrive c).read_shift_register ∧
      (driveAt (diskIIAccessReg c 12 cycles).2 c.drive_select).head_position
          = (selDrive c).head_position ∧
      (driveAt (diskIIAccessReg c 12 cycles).2 c.drive_select).bit_position
          = (selDrive c).bit_position) ∧
    ((driveAt (diskIIAccessReg c 9 cycles).2 c.drive_select).motor = 1 ∧
     (driveAt (diskIIAccessReg c 9 cycles).2 c.drive_select).mark_cycles_turnoff = 0) := by
  refine ⟨?_, ?_, ?_, ?_⟩
  · intro hle
    have hskip := motorCheck_skip (selDrive c) cycles (by omega)
    constructor
    · simp only [diskIIAccessReg, driveAt_writeBack, switchStep, finishAccess, hskip]
      norm_num
      split_ifs <;> simp_all [read_nybble_motor]
    · intro hQ7
      simp [diskIIAccessReg, driveAt_writeBack, switchStep, finishAccess, hskip, hQ7]
  · intro hlt reg hr hr9
    exact deadline_fires c cycles reg hr hr9 hm hk hlt
  · intro hlt hQ7
    have hmc := motorCheck_fires (selDrive c) cycles hm hk hlt
    simp [diskIIAccessReg, driveAt_writeBack, switchStep, finishAccess, hmc, hQ7,
      read_nybble_frozen]
  · simp only [diskIIAccessReg, driveAt_writeBack, switchStep, finishAccess]
    norm_num
    split_ifs <;> simp

/-- Claim C3 witness: the amended theorem applied to the concrete state
`exC3` (deadline 1000) at cycle 500; the motor-on part of the
conclusion is extracted. -/
theorem C3_witness :
    (selDrive exC3).motor = 1 ∧ (selDrive exC3).mark_cycles_turnoff ≠ 0 ∧
    ((driveAt (diskIIAccessReg exC3 9 500).2 exC3.drive_select).motor = 1 ∧
     (driveAt (diskIIAccessReg exC3 9 500).2 exC3.drive_select).mark_cycles_turnoff = 0) :=
  ⟨rfl, by decide, (C3_amended exC3 500 rfl (by decide)).2.2.2⟩

theorem accessReg_drive1 (c : diskII_controller) (reg cycles : Nat)
    (h : c.drive_select = 0) :
    (diskIIAccessReg c reg cycles).2.drive1 = c.drive1 := by
  simp only [diskIIAccessReg]
  exact writeBack_drive1 _ _ _ h

theorem accessReg_drive0 (c : diskII_controller) (reg cycles : Nat)
    (h : c.drive_select ≠ 0) :
    (diskIIAccessReg c reg cycles).2.drive0 = c.drive0 := by
  simp only [diskIIAccessReg]
  exact writeBack_drive0 _ _ _ h

theorem track_nonneg_step (c : diskII_controller) (reg cycles : Nat)
    (hr : reg < 16) (h : 0 ≤ (selDrive c).track) :
    0 ≤ (driveAt (diskIIAccessReg c reg cycles).2 c.drive_select).track := by
  interval_cases reg <;>
    (simp_all [diskIIAccessReg, driveAt_writeBack, switchStep, finishAccess,
       motorCheck_track, read_nybble_track] <;>
     (try split_ifs) <;>
     (try simp_all [finishAccess, driveAt_writeBack, read_nybble_track, motorCheck_track]) <;>
     (try split_ifs) <;>
     (try simp_all [read_nybble_track, motorCheck_track]) <;>
     omega)

theorem applyReads_track_nonneg (l : List (Nat × Nat)) (c : diskII_controller)
    (h0 : 0 ≤ c.drive0.track) (h1 : 0 ≤ c.drive1.track) :
    0 ≤ (applyReads c l).drive0.track ∧ 0 ≤ (applyReads c l).drive1.track := by
  induction l generalizing c with
  | nil => exact ⟨h0, h1⟩
  | cons a rest ih =>
    have hr : (a.1 - 0xC080) % 16 < 16 := Nat.mod_lt _ (by norm_num)
    by_cases hds : c.drive_select = 0
    · have hsel : 0 ≤ (selDrive c).track := by simpa [selDrive, driveAt, hds] using h0
      have hstep := track_nonneg_step c ((a.1 - 0xC080) % 16) a.2 hr hsel
      apply ih
      · simpa [driveAt, hds, diskII_read_C0xx] using hstep
      · rw [show (diskII_read_C0xx c a.1 a.2).2.drive1 = c.drive1 from
          accessReg_drive1 c _ a.2 hds]
        exact h1
    · have hsel : 0 ≤ (selDrive c).track := by simpa [selDrive, driveAt, hds] using h1
      have hstep := track_nonneg_step c ((a.1 - 0xC080) % 16) a.2 hr hsel
      apply ih
      · rw [show (diskII_read_C0xx c a.1 a.2).2.drive0 = c.drive0 from
          accessReg_drive0 c _ a.2 hds]
        exact h0
      · simpa [driveAt, hds, diskII_read_C0xx] using hstep

/-- Claim C5: starting from the initialized controller state, after every
sequence of register accesses (arbitrary addresses and cycle counts, for
any track-buffer contents) the `track` values of both drives are nonnegative:
a step that would make `track` negative is clamped to 0 within the same
access, and the access function is total — no error is reported. -/
theorem C5_track_nonneg (t0 t1 : Int → Nat → Nat) (l : List (Nat × Nat)) :
    0 ≤ (applyReads (diskII_init_controller t0 t1) l).drive0.track ∧
    0 ≤ (applyReads (diskII_init_controller t0 t1) l).drive1.track :=
  applyReads_track_nonneg l _ le_rfl le_rfl

/-- Claim C6: the code contradicts the claimed write-protect sense.  In
the state `exC6hi` with Q6 = 1, Q7 = 0 and `write_protect = 0`, reading
offset 0xE (the only register that can return the sense) yields the
fall-through value 0xEE — bit 7 is 1 although `write_protect` is 0, and
the low bits are not 0 — while the sense path of the code (`wp << 7`) fires
instead on the state `exC7` whose Q6 is 0, as the `Q6 == 0` test in the
`DiskII_Q7L` case shows. -/
theorem C6_sense_checks_wrong_flag :
    exC6hi.drive0.Q6 = 1 ∧ exC6hi.drive0.Q7 = 0 ∧ exC6hi.drive0.write_protect = 0 ∧
    (diskIIAccessReg exC6hi 14 0).1 = 0xEE ∧
    Nat.testBit (diskIIAccessReg exC6hi 14 0).1 7 = true ∧
    exC7.drive0.Q6 = 0 ∧
    (diskIIAccessReg exC7 14 0).1 = exC7.drive0.write_protect <<< 7 := by
  decide

/-- Claim C7, counterexample: offset 0xE is even and in the state `exC7`
the mode flags end up Q6 = 0, Q7 = 0, yet the access returns the
write-protect sense 0x80 through the early return in the `DiskII_Q7L`
case, not the bit-serial `read_nybble` result (0x55, the frozen latched
byte of the motor-off drive). -/
theorem C7_counterexample :
    (diskIIAccessReg exC7 14 0).1 = 0x80 ∧
    (switchStep (motorCheck (selDrive exC7) 0) exC7.drive_select 14 0).2.1.Q7 = 0 ∧
    (switchStep (motorCheck (selDrive exC7) 0) exC7.drive_select 14 0).2.1.Q6 = 0 ∧
    (read_nybble (switchStep (motorCheck (selDrive exC7) 0) exC7.drive_select 14 0).2.1).1
      = 0x55 := by
  decide

/-- Claim C7 (amended): for every even offset other than 0xE, an access
whose mode flags end up Q6 = 0 and Q7 = 0 after the switch returns the
bit-serial `read_nybble` read of the post-switch drive (mode-flag side
effects first, data-register check second); offset 0xE is the exception:
with Q6 = 0 it returns the write-protect sense `write_protect << 7` by
early return before the data-register check, and with Q6 ≠ 0 it returns
the fall-through value 0xEE. -/
theorem C7_amended (c : diskII_controller) (cycles reg : Nat) :
    (reg < 16 → reg % 2 = 0 → reg ≠ 14 →
      (switchStep (motorCheck (selDrive c) cycles) c.drive_select reg cycles).2.1.Q7 = 0 →
      (switchStep (motorCheck (selDrive c) cycles) c.drive_select reg cycles).2.1.Q6 = 0 →
      diskIIAccessReg c reg cycles =
        ((read_nybble
            ((switchStep (motorCheck (selDrive c) cycles) c.drive_select reg cycles).2.1)).1,
         writeBack c
           (read_nybble
             ((switchStep (motorCheck (selDrive c) cycles) c.drive_select reg cycles).2.1)).2
           ((switchStep (motorCheck (selDrive c) cycles) c.drive_select reg cycles).2.2))) ∧
    ((selDrive c).Q6 = 0 →
      (diskIIAccessReg c 14 cycles).1 = (selDrive c).write_protect <<< 7) ∧
    ((selDrive c).Q6 ≠ 0 → (diskIIAccessReg c 14 cycles).1 = 0xEE) := by
  refine ⟨?_, ?_, ?_⟩
  · intro hr he h14 hQ7 hQ6
    interval_cases reg <;> simp_all [diskIIAccessReg, switchStep, finishAccess]
  · intro hQ6
    have h6 : (motorCheck (selDrive c) cycles).Q6 = 0 := by rw [motorCheck_Q6]; exact hQ6
    simp [diskIIAccessReg, switchStep, finishAccess, h6, motorCheck_wp]
  · intro hQ6
    have h6 : ¬ (motorCheck (selDrive c) cycles).Q6 = 0 := by rw [motorCheck_Q6]; exact hQ6
    simp [diskIIAccessReg, switchStep, finishAccess, h6]

/-- Claim C7 witness: the even-offset part of the amended theorem applied
at offset 0xC on the initialized controller (Q6 = Q7 = 0, motor off), and
the 0xE sense part applied on `exC7`. -/
theorem C7_witness :
    diskIIAccessReg (diskII_init_controller zeroTracks zeroTracks) 12 0 =
      ((read_nybble
          ((switchStep
              (motorCheck (selDrive (diskII_init_controller zeroTracks zeroTracks)) 0)
              (diskII_init_controller zeroTracks zeroTracks).drive_select 12 0).2.1)).1,
       writeBack (diskII_init_controller zeroTracks zeroTracks)
         (read_nybble
           ((switchStep
               (motorCheck (selDrive (diskII_init_controller zeroTracks zeroTracks)) 0)
               (diskII_init_controller zeroTracks zeroTracks).drive_select 12 0).2.1)).2
         ((switchStep
             (motorCheck (selDrive (diskII_init_controller zeroTracks zeroTracks)) 0)
             (diskII_init_controller zeroTracks zeroTracks).drive_select 12 0).2.2)) ∧
    (diskIIAccessReg exC7 14 0).1 = (selDrive exC7).write_protect <<< 7 :=
  ⟨(C7_amended (diskII_init_controller zeroTracks zeroTracks) 0 12).1
      (by decide) (by decide) (by decide) (by decide) (by decide),
   (C7_amended exC7 0 14).2.1 (by decide)⟩

/-- Claim C9, counterexample: a register read with no effective mode (the
odd offset 0xF on the initialized controller, which neither performs the
bit-serial read nor the sense) returns the fall-through value 0xEE, not
the 0 byte the claim requires. -/
theorem C9_counterexample :
    (diskIIAccessReg (diskII_init_controller zeroTracks zeroTracks) 15 0).1 = 0xEE ∧
    (diskIIAccessReg (diskII_init_controller zeroTracks zeroTracks) 15 0).1 ≠ 0 := by
  decide

/-- Claim C9 (amended): every register read that neither returns the
bit-serial data read nor the write-protect sense returns the fixed
sentinel byte 0xEE, and the access function is total — no error is
raised. -/
theorem C9_amended (c : diskII_controller) (reg cycles : Nat)
    (h1 : (switchStep (motorCheck (selDrive c) cycles) c.drive_select reg cycles).1 = none)
    (h2 : ¬(reg % 2 = 0 ∧
        (switchStep (motorCheck (selDrive c) cycles) c.drive_select reg cycles).2.1.Q7 = 0 ∧
        (switchStep (motorCheck (selDrive c) cycles) c.drive_select reg cycles).2.1.Q6 = 0)) :
    (diskIIAccessReg c reg cycles).1 = 0xEE := by
  have hs : switchStep (motorCheck (selDrive c) cycles) c.drive_select reg cycles
      = (none, (switchStep (motorCheck (selDrive c) cycles) c.drive_select reg cycles).2) :=
    Prod.ext h1 rfl
  simp only [diskIIAccessReg]
  rw [hs]
  simp [finishAccess, h2]

/-- Claim C9 witness: the amended theorem applied at offset 0xF on the
initialized controller. -/
theorem C9_witness :
    (diskIIAccessReg (diskII_init_controller zeroTracks zeroTracks) 15 0).1 = 0xEE :=
  C9_amended (diskII_init_controller zeroTracks zeroTracks) 15 0 (by decide) (by decide)

/-- Claim C10: every register access touches only the drive selected at
entry — the whole state of the non-selected drive (in particular a pending
expired motor deadline and `motor = true`) is left unchanged — and when
the expired-deadline drive *is* selected, any access (other than the
motor-on register 9, which re-arms the motor) turns the motor off and
clears the deadline. -/
theorem C10_deadline_selected_only (c : diskII_controller) (addr cycles : Nat) :
    (c.drive_select = 0 → (diskII_read_C0xx c addr cycles).2.drive1 = c.drive1) ∧
    (c.drive_select ≠ 0 → (diskII_read_C0xx c addr cycles).2.drive0 = c.drive0) ∧
    (∀ reg, reg < 16 → reg ≠ 9 →
      (selDrive c).motor = 1 → (selDrive c).mark_cycles_turnoff ≠ 0 →
      (selDrive c).mark_cycles_turnoff < cycles →
      (driveAt (diskIIAccessReg c reg cycles).2 c.drive_select).motor = 0 ∧
      (driveAt (diskIIAccessReg c reg cycles).2 c.drive_select).mark_cycles_turnoff = 0) :=
  ⟨fun h => accessReg_drive1 c _ cycles h,
   fun h => accessReg_drive0 c _ cycles h,
   fun reg hr hr9 hm hk hcy => deadline_fires c cycles reg hr hr9 hm hk hcy⟩

/-- Claim C10 witness: in `exC10` drive 1 is not selected and its
deadline (cycle 5) is long past at cycle 1000000; a phase access leaves
drive 1 unchanged, so its motor stays on. -/
theorem C10_witness :
    exC10.drive_select = 0 ∧
    exC10.drive1.motor = 1 ∧ exC10.drive1.mark_cycles_turnoff < 1000000 ∧
    (diskII_read_C0xx exC10 0xC0E1 1000000).2.drive1 = exC10.drive1 :=
  ⟨rfl, rfl, by decide,
   (C10_deadline_selected_only exC10 0xC0E1 1000000).1 rfl⟩

theorem burstLoop_stop (step : Nat → Nat) (start fuel cycles : Nat)
    (h : ¬ cycles - start < 17008) : burstLoop step start fuel cycles = cycles := by
  cases fuel <;> simp [burstLoop, h]

theorem burstLoop_bounds (step : Nat → Nat) (k start : Nat)
    (hadv : ∀ c, c < step c) (hbound : ∀ c, step c ≤ c + k) :
    ∀ fuel cycles, start ≤ cycles → cycles - start < 17008 →
      17008 - (cycles - start) ≤ fuel →
      17008 ≤ burstLoop step start fuel cycles - start ∧
      burstLoop step start fuel cycles - start < 17008 + k := by
  intro fuel
  induction fuel with
  | zero => intro cycles h1 h2 h3; omega
  | succ m ih =>
    intro cycles h1 h2 h3
    simp only [burstLoop, if_pos h2]
    by_cases hc : step cycles - start < 17008
    · exact ih (step cycles) (by have := hadv cycles; omega) hc
        (by have := hadv cycles; omega)
    · rw [burstLoop_stop step start m (step cycles) hc]
      have h4 := hadv cycles
      have h5 := hbound cycles
      omega

theorem runFrames_bounds (step : Nat → Nat) (k : Nat)
    (hadv : ∀ c, c < step c) (hbound : ∀ c, step c ≤ c + k) :
    ∀ n cycles, cycles ≤ runFrames step n cycles ∧
      n * 17008 ≤ runFrames step n cycles - cycles ∧
      runFrames step n cycles - cycles ≤ n * (17008 + k - 1) := by
  intro n
  induction n with
  | zero => intro cycles; simp [runFrames]
  | succ m ih =>
    intro cycles
    have hb := burstLoop_bounds step k cycles hadv hbound 17008 cycles le_rfl
      (by norm_num) (by omega)
    have hle : cycles ≤ burstLoop step cycles 17008 cycles := by omega
    have hih := ih (burstLoop step cycles 17008 cycles)
    have hk1 : 1 ≤ k := by
      have := hadv 0
      have := hbound 0
      omega
    simp only [runFrames]
    refine ⟨by omega, by omega, ?_⟩
    have hu1 : runFrames step m (burstLoop step cycles 17008 cycles)
        - burstLoop step cycles 17008 cycles ≤ m * (17008 + k - 1) := hih.2.2
    have hu2 : burstLoop step cycles 17008 cycles - cycles ≤ 17008 + k - 1 := by omega
    have hsum : runFrames step m (burstLoop step cycles 17008 cycles) - cycles
        ≤ (runFrames step m (burstLoop step cycles 17008 cycles)
            - burstLoop step cycles 17008 cycles)
          + (burstLoop step cycles 17008 cycles - cycles) := by omega
    calc runFrames step m (burstLoop step cycles 17008 cycles) - cycles
        ≤ _ := hsum
      _ ≤ m * (17008 + k - 1) + (17008 + k - 1) := Nat.add_le_add hu1 hu2
      _ = (m + 1) * (17008 + k - 1) := (Nat.succ_mul m (17008 + k - 1)).symm

/-- Claim C8: abstracting one CPU step as a function that advances the
cycle counter (by at least 1 and at most k cycles, never signalling a
stop), the burst loop of `run_cpus` keeps stepping while fewer than
17008 cycles have elapsed since the burst start and exits as soon as at
least 17008 have elapsed (so the burst ends in [17008, 17008 + k)); and
after 300 scheduler iterations with no halt, the cumulative emulated
cycles lie between 300 * 17008 and 300 * (17008 + k − 1) — equal to
300 * 17008 up to the per-instruction overshoot of each burst. -/
theorem C8_scheduler_bursts (step : Nat → Nat) (k start : Nat)
    (hadv : ∀ c, c < step c) (hbound : ∀ c, step c ≤ c + k) :
    (∀ cycles, start ≤ cycles → cycles - start < 17008 →
        17008 ≤ burstLoop step start 17008 cycles - start ∧
        burstLoop step start 17008 cycles - start < 17008 + k) ∧
    (300 * 17008 ≤ runFrames step 300 start - start ∧
     runFrames step 300 start - start ≤ 300 * (17008 + k - 1)) := by
  constructor
  · intro cycles h1 h2
    exact burstLoop_bounds step k start hadv hbound 17008 cycles h1 h2 (by omega)
  · exact ⟨(runFrames_bounds step k hadv hbound 300 start).2.1,
           (runFrames_bounds step k hadv hbound 300 start).2.2⟩

/-- Claim C8 witness: the theorem applied to the concrete step function
that advances the cycle counter by 2 each step, from cycle 0. -/
theorem C8_witness :
    300 * 17008 ≤ runFrames (fun c => c + 2) 300 0 - 0 ∧
    runFrames (fun c => c + 2) 300 0 - 0 ≤ 300 * (17008 + 2 - 1) :=
  (C8_scheduler_bursts (fun c => c + 2) 2 0
    (fun c => by show c < c + 2; omega) (fun c => le_rfl)).2
